import Mathlib

/-
Verification of the core orchestration logic of the infi.projector
command-line tool: the shared buildout parameter stack and its scoped
activation, the buildout configuration-file scope, namespace derivation
for dotted project names, the build "scripts" pipeline, the repository
"init" pipeline, and the chdir scope.

Each definition is a shallow embedding of the corresponding Python
function; external collaborators (git, git-flow, buildout, process
execution) are abstracted as succeeding, and filesystem facts relevant
to control flow (existence of bootstrap.py, bin/buildout, .git, the
target subdirectory) are passed as explicit booleans.
-/

namespace Projector

/-! ### Python string primitives

The Python code uses str.split with an explicit separator, str.strip,
str.lower and string concatenation. Lean string-library functions do
not kernel-reduce, so these are modelled directly on the character
lists, mirroring the Python semantics for an explicit one-character
separator: splitting preserves empty fields and an empty string splits
to one empty field. -/

/-- Split a character list at every occurrence of the separator,
keeping empty fields, as Python str.split(sep) does. -/
def pySplitAux (sep : Char) : List Char → List (List Char)
  | [] => [[]]
  | c :: rest =>
    match pySplitAux sep rest with
    | [] => if c = sep then [[], []] else [[c]]
    | g :: gs => if c = sep then [] :: g :: gs else (c :: g) :: gs

/-- Python name.split(sep) for a one-character separator. -/
def pySplit (sep : Char) (s : String) : List String :=
  (pySplitAux sep s.data).map String.mk

/-- Python whitespace, as stripped by str.strip(). -/
def isPySpace (c : Char) : Bool :=
  c = ' ' || c = '\t' || c = '\n' || c = '\r' || c = '\x0b' || c = '\x0c'

/-- Python str.strip(): drop whitespace from both ends. -/
def pyStrip (s : String) : String :=
  String.mk (((s.data.dropWhile isPySpace).reverse.dropWhile isPySpace).reverse)

/-- ASCII lower-casing of one character, as ConfigParser optionxform
applies to option names. -/
def charLower (c : Char) : Char :=
  if 'A' ≤ c ∧ c ≤ 'Z' then Char.ofNat (c.toNat + 32) else c

/-- Python str.lower() restricted to ASCII. -/
def pyLower (s : String) : String :=
  String.mk (s.data.map charLower)

/-! ### The shared buildout parameter stack

src/infi/projector/helper/utils/__init__.py defines the module-level
list BUILDOUT_PARAMETERS and the context manager
buildout_parameters_context(parameters), whose body appends each
parameter not already present on entry and, in the finally block,
removes each parameter of the activation list that is present on exit
(Python list.remove: first occurrence). -/

/-- The value of BUILDOUT_PARAMETERS at module load, before any scope
has been entered (utils line 7). -/
def BUILDOUT_PARAMETERS_init : List String := ["-s"]

/-- Entry of buildout_parameters_context: for each parameter, in
order, append it to the stack when not already present. -/
def paramsEnter (stack parameters : List String) : List String :=
  parameters.foldl (fun st p => if p ∈ st then st else st ++ [p]) stack

/-- Exit of buildout_parameters_context: for each parameter, in order,
remove its first occurrence from the stack when present. -/
def paramsExit (stack parameters : List String) : List String :=
  parameters.foldl (fun st p => if p ∈ st then st.erase p else st) stack

/-- One full activation of buildout_parameters_context with no body
effects on the stack: entry followed by exit. -/
def paramsScope (stack parameters : List String) : List String :=
  paramsExit (paramsEnter stack parameters) parameters

/-- Two nested activations: outer entry, inner entry, inner exit,
outer exit, as in buildout_newest_or_offline_context around
submodule_update / create_setup_py / create_scripts. -/
def paramsScopeNested (stack outer inner : List String) : List String :=
  paramsExit (paramsExit (paramsEnter (paramsEnter stack outer) inner) inner) outer

/-! ### Namespace derivation (repository plugin) -/

/-- One iteration of the loop in get_package_namespace: append the
join of the last accumulated namespace with the next item, or the item
itself when the accumulator is empty. -/
def gpnStep (namespaces : List String) (item : String) : List String :=
  namespaces ++ [match namespaces.getLast? with
    | some last => last ++ "." ++ item
    | none => item]

/-- get_package_namespace from the repository plugin: fold gpnStep
over all dot-separated components of the name except the last. -/
def get_package_namespace (name : String) : List String :=
  ((pySplit '.' name).dropLast).foldl gpnStep []

/-- Join a component list with dots: the dotted rendering of an
initial segment of the component list. -/
def dotJoin : List String → String
  | [] => ""
  | [s] => s
  | s :: t :: rest => s ++ "." ++ dotJoin (t :: rest)

/-- Spec-side definition, following the spec text: the ordered list of
the dotted renderings of every nonempty strict initial segment of the
dot-separated name, excluding the full name itself. -/
def namespace_segments_spec (name : String) : List String :=
  (((pySplit '.' name).dropLast).inits.tail).map dotJoin

/-- Helper characterisation of the loop of get_package_namespace: the
chain of successive dot-joins extending a current string. -/
def dotChain (cur : String) : List String → List String
  | [] => []
  | item :: rest => (cur ++ "." ++ item) :: dotChain (cur ++ "." ++ item) rest

/-! ### Bootstrap gate and the build scripts pipeline -/

/-- Outcome of bootstrap_if_necessary. -/
inductive BootstrapOutcome
  | fatalExit (code : Nat)
  | ranBootstrap
  | skipped
deriving DecidableEq

/-- bootstrap_if_necessary (build plugin lines 52-60): exit 1 when
bootstrap.py is absent; otherwise run bootstrap.py when bin/buildout
is not an existing executable or --force-bootstrap was given;
otherwise do nothing. -/
def bootstrap_if_necessary (bootstrapPyExists binBuildoutExists forceBootstrap : Bool) :
    BootstrapOutcome :=
  if !bootstrapPyExists then BootstrapOutcome.fatalExit 1
  else if !binBuildoutExists || forceBootstrap then BootstrapOutcome.ranBootstrap
  else BootstrapOutcome.skipped

/-- The observable steps of the build scripts pipeline. -/
inductive Step
  | cleanStep
  | cacheDirs
  | bootstrapRun
  | submoduleUpdate
  | createSetupPy
  | createScripts
  | installReadline
deriving DecidableEq

/-- BuildPlugin.scripts (build plugin lines 153-167) as the sequence
of steps it executes, given the six flags it reads and the two
filesystem facts the bootstrap gate consults. External tools are
abstracted as succeeding; Except.error carries the fatal exit code of
the bootstrap gate. -/
def scripts_pipeline (clean forceBootstrap noSubmodules noSetupPy noScripts noReadline
    bootstrapPyExists binBuildoutExists : Bool) : Except Nat (List Step) :=
  let t0 := if clean then [Step.cleanStep] else []
  let t1 := t0 ++ [Step.cacheDirs]
  match bootstrap_if_necessary bootstrapPyExists binBuildoutExists forceBootstrap with
  | BootstrapOutcome.fatalExit c => Except.error c
  | outcome =>
    let t2 := t1 ++ (if outcome = BootstrapOutcome.ranBootstrap then [Step.bootstrapRun] else [])
    let t3 := t2 ++ (if !noSubmodules then [Step.submoduleUpdate] else [])
    let t4 := t3 ++ (if !noSetupPy then [Step.createSetupPy] else [])
    let t5 := t4 ++ (if !noScripts then [Step.createScripts] else [])
    let t6 := t5 ++ (if !noReadline then [Step.installReadline] else [])
    Except.ok t6

/-- Whether a given step appears in the trace of a pipeline run; false
when the pipeline exited fatally. -/
def stepRuns (r : Except Nat (List Step)) (s : Step) : Bool :=
  match r with
  | Except.error _ => false
  | Except.ok t => decide (s ∈ t)

/-! ### The buildout configuration-file scope

utils lines 26-35: open_buildout_configfile(filepath) reads the file
into a ConfigParser (a missing file yields an empty store), yields the
parser, and in the finally block unconditionally rewrites the file
with the serialized parser. The function takes only the filepath
argument; it has no write-back-mode parameter.

The parser is modelled for the simple ini subset the tool uses:
section headers, key = value lines, no continuation lines, comments or
interpolation. -/

/-- An in-memory configuration store: ordered sections, each an
ordered list of options. -/
abbrev ConfigStore := List (String × List (String × String))

/-- Split a line at the first equals sign, if any. -/
def splitFirstEq : List Char → Option (List Char × List Char)
  | [] => none
  | c :: rest =>
    if c = '=' then some ([], rest)
    else match splitFirstEq rest with
      | none => none
      | some (k, v) => some (c :: k, v)

/-- True when the stripped line is a section header of shape
bracket-name-bracket. -/
def isSectionHeader (s : String) : Bool :=
  match s.data, s.data.getLast? with
  | '[' :: _ :: _, some ']' => true
  | _, _ => false

/-- The section name inside a header line. -/
def headerName (s : String) : String :=
  String.mk ((s.data.drop 1).dropLast)

/-- Append an option to the named section of the store. -/
def addOption (store : ConfigStore) (sectionName k v : String) : ConfigStore :=
  store.map (fun sec => if sec.1 = sectionName then (sec.1, sec.2 ++ [(k, v)]) else sec)

/-- Parse one line into the accumulated store and current section. -/
def parseLine (acc : ConfigStore × Option String) (line : String) :
    ConfigStore × Option String :=
  let t := pyStrip line
  if t = "" then acc
  else if isSectionHeader t then
    (acc.1 ++ [(headerName t, [])], some (headerName t))
  else match acc.2 with
    | none => acc
    | some sectionName =>
      match splitFirstEq t.data with
      | none => acc
      | some (k, v) =>
        (addOption acc.1 sectionName (pyLower (pyStrip (String.mk k))) (pyStrip (String.mk v)),
         acc.2)

/-- ConfigParser.read on file content: parse line by line. -/
def parseConfig (content : String) : ConfigStore :=
  ((pySplit '\n' content).foldl parseLine ([], none)).1

/-- ConfigParser.write: each section header followed by its options as
"key = value" lines and a trailing blank line. -/
def serializeConfig (store : ConfigStore) : String :=
  store.foldl
    (fun out sec =>
      out ++ "[" ++ sec.1 ++ "]\n"
          ++ sec.2.foldl (fun o kv => o ++ kv.1 ++ " = " ++ kv.2 ++ "\n") ""
          ++ "\n")
    ""

/-- ConfigParser.get on the modelled store (option names are
lower-cased by optionxform on both write and lookup). -/
def storeGet (store : ConfigStore) (sectionName key : String) : Option String :=
  match store.find? (fun sec => decide (sec.1 = sectionName)) with
  | none => none
  | some sec =>
    match sec.2.find? (fun kv => decide (kv.1 = pyLower key)) with
    | none => none
    | some kv => some kv.2

/-- open_buildout_configfile as a file-content transformer: read the
store (empty when the file is missing), apply the body to the
in-memory store, and on scope exit unconditionally write the
serialized store back; the result is the file content after the scope.
-/
def open_buildout_configfile_scope (content : Option String)
    (body : ConfigStore → ConfigStore) : Option String :=
  let store := match content with
    | none => ([] : ConfigStore)
    | some c => parseConfig c
  some (serializeConfig (body store))

/-- The backing-file content after BuildPlugin.create_cache_directories
has run its configuration scope: the step only reads the
download-cache key, so the body is the identity on the store. -/
def create_cache_directories_file_after (content : Option String) : Option String :=
  open_buildout_configfile_scope content id

/-! ### The repository init pipeline -/

/-- The keyword parameters accepted by open_buildout_configfile as
defined in utils line 27. -/
def open_buildout_configfile_arg_names : List String := ["filepath"]

/-- Python call binding: a call is accepted only when every keyword
argument names a declared parameter; otherwise it raises TypeError. -/
def callKeywordsAccepted (paramNames kwargs : List String) : Bool :=
  kwargs.all (fun k => decide (k ∈ paramNames))

/-- Abnormal terminations of the init pipeline. -/
inductive PyError
  | systemExit (code : Nat)
  | typeError
deriving DecidableEq

/-- The error, if any, raised by the call
open_buildout_configfile(write_on_exit=True) in
RepositoryPlugin.set_buildout_config (repository plugin line 102),
determined by whether the callee accepts that keyword. -/
def set_buildout_config_error : Option PyError :=
  if callKeywordsAccepted open_buildout_configfile_arg_names ["write_on_exit"] then none
  else some PyError.typeError

/-- The observable steps of RepositoryPlugin.init. -/
inductive InitStep
  | mkdirStep
  | gitInit
  | gitflowInit
  | releaseInitialVersion
  | checkoutDevelop
  | addInitialFiles
  | setBuildoutConfig
  | generateSrc
  | appendGitignore
  | commitAll
deriving DecidableEq

/-- The body of RepositoryPlugin.init after the optional subdirectory
scope: exit 1 when .git exists, else run the steps in order; the
set_buildout_config step aborts with the error its configuration call
raises, when it raises one. External git and git-flow operations are
abstracted as succeeding. -/
def repo_init_body (dotgitExists : Bool) : List InitStep × Option PyError :=
  if dotgitExists then ([], some (PyError.systemExit 1))
  else
    match set_buildout_config_error with
    | some e =>
      ([InitStep.gitInit, InitStep.gitflowInit, InitStep.releaseInitialVersion,
        InitStep.checkoutDevelop, InitStep.addInitialFiles], some e)
    | none =>
      ([InitStep.gitInit, InitStep.gitflowInit, InitStep.releaseInitialVersion,
        InitStep.checkoutDevelop, InitStep.addInitialFiles, InitStep.setBuildoutConfig,
        InitStep.generateSrc, InitStep.appendGitignore, InitStep.commitAll], none)

/-- RepositoryPlugin.init: without --mkdir the body runs in the
current directory; with --mkdir it exits 1 when the subdirectory
already exists, else creates it, enters it (where no .git exists) and
runs the body there. The step list records what executed before the
pipeline ended. -/
def repo_init (mkdirFlag subdirExists dotgitExists : Bool) : List InitStep × Option PyError :=
  if !mkdirFlag then repo_init_body dotgitExists
  else if subdirExists then ([], some (PyError.systemExit 1))
  else
    let inner := repo_init_body false
    (InitStep.mkdirStep :: inner.1, inner.2)

/-! ### The chdir scope -/

/-- os.path.abspath relative to the current working directory, for the
paths the code uses: the current-directory marker resolves to the
working directory itself, absolute paths stay, relative paths are
joined onto the working directory. -/
def abspathFrom (cwd p : String) : String :=
  if p = "." then cwd
  else match p.data with
    | '/' :: _ => p
    | _ => cwd ++ "/" ++ p

/-- The chdir context manager (utils lines 14-24): record the absolute
current directory, change into the target, run the body (which may
itself change directory and may raise, returning its final working
directory and a raised flag), and in the finally block change back to
the recorded directory. The result is the working directory after the
scope and the propagated raised flag. -/
def chdir_scope (cwd0 path : String) (body : String → String × Bool) : String × Bool :=
  let target := abspathFrom cwd0 path
  let currentDir := abspathFrom cwd0 "."
  let r := body target
  (currentDir, r.2)

/-- RepositoryPlugin._create_subdir_if_necessary with --mkdir given:
exit 1 when the subdirectory exists, else create it and run the body
inside a chdir scope. -/
def create_subdir_scope (cwd0 dirname : String) (subdirExists : Bool)
    (body : String → String × Bool) : Except Nat (String × Bool) :=
  if subdirExists then Except.error 1
  else Except.ok (chdir_scope cwd0 dirname body)

/-! ### Helper lemmas on the parameter stack -/

theorem paramsEnter_mem (t : String) (parameters : List String) :
    ∀ s : List String, t ∈ s → t ∈ paramsEnter s parameters := by
  induction parameters with
  | nil => intro s h; exact h
  | cons p ps ih =>
    intro s h
    show t ∈ paramsEnter (if p ∈ s then s else s ++ [p]) ps
    apply ih
    by_cases hp : p ∈ s
    · rw [if_pos hp]; exact h
    · rw [if_neg hp]; exact List.mem_append_left _ h

theorem paramsExit_mem (t : String) (parameters : List String) :
    ∀ s : List String, t ∉ parameters → t ∈ s → t ∈ paramsExit s parameters := by
  induction parameters with
  | nil => intro s _ h; exact h
  | cons p ps ih =>
    intro s hnp h
    have hne : t ≠ p := fun e => hnp (by rw [e]; exact List.mem_cons_self p ps)
    have hnp2 : t ∉ ps := fun h2 => hnp (List.mem_cons_of_mem p h2)
    show t ∈ paramsExit (if p ∈ s then s.erase p else s) ps
    apply ih _ hnp2
    by_cases hp : p ∈ s
    · rw [if_pos hp]; exact (List.mem_erase_of_ne hne).2 h
    · rw [if_neg hp]; exact h

theorem paramsEnter_append (parameters : List String) :
    ∀ s : List String, parameters.Nodup → (∀ p ∈ parameters, p ∉ s) →
      paramsEnter s parameters = s ++ parameters := by
  induction parameters with
  | nil => intro s _ _; simp [paramsEnter]
  | cons p ps ih =>
    intro s hnd hdisj
    have hp : p ∉ s := hdisj p (List.mem_cons_self p ps)
    have hdisj2 : ∀ q ∈ ps, q ∉ s ++ [p] := by
      intro q hq hmem
      rcases List.mem_append.1 hmem with h1 | h1
      · exact hdisj q (List.mem_cons_of_mem p hq) h1
      · exact (List.nodup_cons.1 hnd).1 ((List.mem_singleton.1 h1) ▸ hq)
    show paramsEnter (if p ∈ s then s else s ++ [p]) ps = s ++ p :: ps
    rw [if_neg hp, ih (s ++ [p]) (List.nodup_cons.1 hnd).2 hdisj2]
    simp

theorem paramsExit_append (parameters : List String) :
    ∀ s : List String, parameters.Nodup → (∀ p ∈ parameters, p ∉ s) →
      paramsExit (s ++ parameters) parameters = s := by
  induction parameters with
  | nil => intro s _ _; simp [paramsExit]
  | cons p ps ih =>
    intro s hnd hdisj
    have hp : p ∉ s := hdisj p (List.mem_cons_self p ps)
    have hmem : p ∈ s ++ p :: ps := List.mem_append_right s (List.mem_cons_self p ps)
    show paramsExit (if p ∈ s ++ p :: ps then (s ++ p :: ps).erase p else s ++ p :: ps) ps = s
    rw [if_pos hmem, List.erase_append_right _ hp, List.erase_cons_head]
    exact ih s (List.nodup_cons.1 hnd).2 (fun q hq => hdisj q (List.mem_cons_of_mem p hq))

/-! ### Helper lemmas on namespace derivation -/

theorem gpnStep_concat (acc : List String) (cur item : String) :
    gpnStep (acc ++ [cur]) item = (acc ++ [cur]) ++ [cur ++ "." ++ item] := by
  simp [gpnStep]

theorem foldl_gpnStep (l : List String) :
    ∀ (acc : List String) (cur : String),
      List.foldl gpnStep (acc ++ [cur]) l = (acc ++ [cur]) ++ dotChain cur l := by
  induction l with
  | nil => intro acc cur; simp [dotChain]
  | cons item rest ih =>
    intro acc cur
    rw [List.foldl_cons, gpnStep_concat, ih (acc ++ [cur]) (cur ++ "." ++ item)]
    simp [dotChain, List.append_assoc]

theorem foldl_gpnStep_nil_cons (p : String) (rest : List String) :
    List.foldl gpnStep [] (p :: rest) = p :: dotChain p rest := by
  rw [List.foldl_cons]
  have h0 : gpnStep [] p = [] ++ [p] := rfl
  rw [h0, foldl_gpnStep]
  simp

theorem dotJoin_cons_cons (c r : String) (t : List String) :
    dotJoin (c :: r :: t) = dotJoin ((c ++ "." ++ r) :: t) := by
  cases t with
  | nil => rfl
  | cons x xs =>
    show c ++ "." ++ (r ++ "." ++ dotJoin (x :: xs)) = (c ++ "." ++ r) ++ "." ++ dotJoin (x :: xs)
    simp [String.ext_iff, List.append_assoc]

theorem inits_map_dotJoin (rest : List String) :
    ∀ cur : String,
      (rest.inits).map (fun l => dotJoin (cur :: l)) = cur :: dotChain cur rest := by
  induction rest with
  | nil => intro cur; simp [dotChain, dotJoin]
  | cons r rs ih =>
    intro cur
    rw [List.inits_cons]
    simp only [List.map_cons, List.map_map]
    have h1 : ((fun l => dotJoin (cur :: l)) ∘ fun t => r :: t)
        = fun t => dotJoin ((cur ++ "." ++ r) :: t) := by
      funext t
      exact dotJoin_cons_cons cur r t
    rw [h1, ih (cur ++ "." ++ r)]
    simp [dotChain, dotJoin]

theorem get_package_namespace_eq_spec (name : String) :
    get_package_namespace name = namespace_segments_spec name := by
  unfold get_package_namespace namespace_segments_spec
  cases h : (pySplit '.' name).dropLast with
  | nil => simp
  | cons p rest =>
    rw [foldl_gpnStep_nil_cons, List.inits_cons]
    simp only [List.tail_cons, List.map_map]
    have h1 : (dotJoin ∘ fun t => p :: t) = fun l => dotJoin (p :: l) := rfl
    rw [h1]
    exact (inits_map_dotJoin rest p).symm

theorem dotChain_length_lt (rest : List String) :
    ∀ cur x : String, x ∈ dotChain cur rest → cur.length < x.length := by
  induction rest with
  | nil => intro cur x hx; simp [dotChain] at hx
  | cons r rs ih =>
    intro cur x hx
    have hlen : cur.length < (cur ++ "." ++ r).length := by
      rw [String.length_append, String.length_append]
      have h1 : ("." : String).length = 1 := rfl
      omega
    simp only [dotChain] at hx
    rcases List.mem_cons.1 hx with h | h
    · rw [h]; exact hlen
    · exact lt_trans hlen (ih (cur ++ "." ++ r) x h)

theorem dotChain_cons_nodup (rest : List String) :
    ∀ cur : String, (cur :: dotChain cur rest).Nodup := by
  induction rest with
  | nil => intro cur; simp [dotChain]
  | cons r rs ih =>
    intro cur
    simp only [dotChain]
    refine List.nodup_cons.2 ⟨?_, ih (cur ++ "." ++ r)⟩
    intro hmem
    have hlen : cur.length < (cur ++ "." ++ r).length := by
      rw [String.length_append, String.length_append]
      have h1 : ("." : String).length = 1 := rfl
      omega
    rcases List.mem_cons.1 hmem with h | h
    · rw [← h] at hlen; exact lt_irrefl _ hlen
    · have h2 := dotChain_length_lt rs (cur ++ "." ++ r) cur h
      omega

theorem get_package_namespace_nodup (name : String) :
    (get_package_namespace name).Nodup := by
  unfold get_package_namespace
  cases h : (pySplit '.' name).dropLast with
  | nil => simp
  | cons p rest =>
    rw [foldl_gpnStep_nil_cons]
    exact dotChain_cons_nodup rest p

/-! ### Claim theorems -/

/-- Claim C1, counterexample: the token "-s" is present in the shared
parameter stack before a scope activated with the set containing "-s"
is entered, and it is gone after the scope exits: the exit code
removes by name, not by ownership of the addition. -/
theorem c1_preexisting_token_removed :
    "-s" ∈ BUILDOUT_PARAMETERS_init ∧
    "-s" ∉ paramsScope BUILDOUT_PARAMETERS_init ["-s"] := by
  decide

/-- Claim C1, amended: a token present in the stack before a scope is
entered survives the scope exactly when it is not a member of the set
of tokens the scope was activated with; a pre-existing token that is
in the activation set is removed on exit. -/
theorem c1_token_outside_activation_preserved (stack parameters : List String) (t : String)
    (h1 : t ∈ stack) (h2 : t ∉ parameters) : t ∈ paramsScope stack parameters :=
  paramsExit_mem t parameters _ h2 (paramsEnter_mem t parameters stack h1)

theorem c1_token_outside_activation_preserved_witness :
    "-s" ∈ (["-s"] : List String) ∧
    "-s" ∉ (["buildout:develop="] : List String) ∧
    "-s" ∈ paramsScope ["-s"] ["buildout:develop="] :=
  ⟨by decide, by decide,
   c1_token_outside_activation_preserved ["-s"] ["buildout:develop="] "-s"
     (by decide) (by decide)⟩

/-- Claim C2: the cache-directory step opens the configuration store
only to read the download-cache key, yet the scope exit rewrites the
backing file unconditionally: on the concrete file content written
without spaces around the equals sign, the on-disk content after the
step differs from the content before, even though the step performed
no mutation and the read of download-cache succeeded. -/
theorem c2_open_scope_always_rewrites_file :
    create_cache_directories_file_after (some "[buildout]\ndownload-cache=.cache\n")
      = some "[buildout]\ndownload-cache = .cache\n\n" ∧
    (some "[buildout]\ndownload-cache = .cache\n\n" : Option String)
      ≠ some "[buildout]\ndownload-cache=.cache\n" ∧
    storeGet (parseConfig "[buildout]\ndownload-cache=.cache\n") "buildout" "download-cache"
      = some ".cache" :=
  ⟨by decide, by decide, by decide⟩

/-- Claim C3: the configuration step of repository init calls
open_buildout_configfile with the keyword argument write_on_exit,
which the function as defined does not accept; the call therefore
raises TypeError, the step does not return normally, and the
source-tree, gitignore and commit steps never run. -/
theorem c3_set_buildout_config_raises_typeerror :
    set_buildout_config_error = some PyError.typeError ∧
    repo_init false false false =
      ([InitStep.gitInit, InitStep.gitflowInit, InitStep.releaseInitialVersion,
        InitStep.checkoutDevelop, InitStep.addInitialFiles], some PyError.typeError) :=
  ⟨by decide, by decide⟩

/-- Claim C4, counterexample: with the inner activation set containing
"-s" (disjoint from the empty outer set) and the stack in its initial
state, the nested scopes do not restore the stack: the inner exit
removes the pre-existing "-s". -/
theorem c4_nested_disjoint_not_restored :
    (∀ p ∈ (["-s"] : List String), p ∉ ([] : List String)) ∧
    paramsScopeNested ["-s"] [] ["-s"] ≠ ["-s"] := by
  decide

/-- Claim C4, amended: for duplicate-free token sets T1 and T2 with
empty intersection, neither of which contains a token already present
in the stack, entering a scope with T2, then a nested scope with T1,
then exiting both, restores the stack exactly. -/
theorem c4_nested_scopes_restore (s T1 T2 : List String)
    (h1 : T1.Nodup) (h2 : T2.Nodup)
    (hd : ∀ p ∈ T1, p ∉ T2) (hs1 : ∀ p ∈ T1, p ∉ s) (hs2 : ∀ p ∈ T2, p ∉ s) :
    paramsScopeNested s T2 T1 = s := by
  have hdisj1 : ∀ p ∈ T1, p ∉ s ++ T2 := by
    intro p hp hmem
    rcases List.mem_append.1 hmem with h | h
    · exact hs1 p hp h
    · exact hd p hp h
  unfold paramsScopeNested
  rw [paramsEnter_append T2 s h2 hs2, paramsEnter_append T1 (s ++ T2) h1 hdisj1,
      paramsExit_append T1 (s ++ T2) h1 hdisj1, paramsExit_append T2 s h2 hs2]

theorem c4_nested_scopes_restore_witness :
    (["buildout:develop="] : List String).Nodup ∧
    (["-n"] : List String).Nodup ∧
    (∀ p ∈ (["buildout:develop="] : List String), p ∉ (["-n"] : List String)) ∧
    (∀ p ∈ (["buildout:develop="] : List String), p ∉ (["-s"] : List String)) ∧
    (∀ p ∈ (["-n"] : List String), p ∉ (["-s"] : List String)) ∧
    paramsScopeNested ["-s"] ["-n"] ["buildout:develop="] = ["-s"] :=
  ⟨by decide, by decide, by decide, by decide, by decide,
   c4_nested_scopes_restore ["-s"] ["buildout:develop="] ["-n"]
     (by decide) (by decide) (by decide) (by decide) (by decide)⟩

/-- Claim C5, counterexample: the shared parameter stack is not empty
at process start; the module initializes it to the one-element list
containing "-s". -/
theorem c5_stack_not_empty_at_start : BUILDOUT_PARAMETERS_init ≠ [] := by
  decide

/-- Claim C5, amended: at process start the shared parameter stack
contains exactly the token "-s", and a scope activation whose
duplicate-free token set is disjoint from it returns the stack to that
initial state on exit. -/
theorem c5_initial_stack_and_scope_restore :
    BUILDOUT_PARAMETERS_init = ["-s"] ∧
    ∀ ps : List String, ps.Nodup → (∀ p ∈ ps, p ∉ BUILDOUT_PARAMETERS_init) →
      paramsScope BUILDOUT_PARAMETERS_init ps = BUILDOUT_PARAMETERS_init := by
  refine ⟨rfl, ?_⟩
  intro ps hnd hdisj
  unfold paramsScope
  rw [paramsEnter_append ps BUILDOUT_PARAMETERS_init hnd hdisj,
      paramsExit_append ps BUILDOUT_PARAMETERS_init hnd hdisj]

theorem c5_initial_stack_and_scope_restore_witness :
    (["-n", "-o"] : List String).Nodup ∧
    (∀ p ∈ (["-n", "-o"] : List String), p ∉ BUILDOUT_PARAMETERS_init) ∧
    paramsScope BUILDOUT_PARAMETERS_init ["-n", "-o"] = BUILDOUT_PARAMETERS_init :=
  ⟨by decide, by decide,
   c5_initial_stack_and_scope_restore.2 ["-n", "-o"] (by decide) (by decide)⟩

/-- Claim C6: the bootstrap step exits fatally with status 1 exactly
when bootstrap.py is absent; when it is present, the bootstrap process
runs if and only if bin/buildout is absent or the force flag is set,
and otherwise the step is skipped without error. -/
theorem c6_bootstrap_gate :
    ∀ bootstrapPyExists binBuildoutExists forceBootstrap : Bool,
      (bootstrap_if_necessary bootstrapPyExists binBuildoutExists forceBootstrap
          = BootstrapOutcome.fatalExit 1 ↔ bootstrapPyExists = false) ∧
      (bootstrap_if_necessary bootstrapPyExists binBuildoutExists forceBootstrap
          = BootstrapOutcome.ranBootstrap
        ↔ bootstrapPyExists = true ∧ (binBuildoutExists = false ∨ forceBootstrap = true)) ∧
      (bootstrap_if_necessary bootstrapPyExists binBuildoutExists forceBootstrap
          = BootstrapOutcome.skipped
        ↔ bootstrapPyExists = true ∧ binBuildoutExists = true ∧ forceBootstrap = false) := by
  decide

/-- Claim C7: with --no-submodules and --no-readline, a pre-existing
bin/buildout and no force flag, the pipeline runs exactly the
cache-directory, setup-file and console-script steps and succeeds;
and, whenever bootstrap.py is present, each flag-gated step of the
pipeline runs if and only if its own flag allows it, independently of
all other flags. -/
theorem c7_scripts_pipeline_flags :
    scripts_pipeline false false true false false true true true
      = Except.ok [Step.cacheDirs, Step.createSetupPy, Step.createScripts] ∧
    ∀ clean force noSub noSetup noScripts noReadline binBuildout : Bool,
      stepRuns (scripts_pipeline clean force noSub noSetup noScripts noReadline true binBuildout)
          Step.bootstrapRun = (!binBuildout || force) ∧
      stepRuns (scripts_pipeline clean force noSub noSetup noScripts noReadline true binBuildout)
          Step.submoduleUpdate = !noSub ∧
      stepRuns (scripts_pipeline clean force noSub noSetup noScripts noReadline true binBuildout)
          Step.createSetupPy = !noSetup ∧
      stepRuns (scripts_pipeline clean force noSub noSetup noScripts noReadline true binBuildout)
          Step.createScripts = !noScripts ∧
      stepRuns (scripts_pipeline clean force noSub noSetup noScripts noReadline true binBuildout)
          Step.installReadline = !noReadline := by
  refine ⟨rfl, ?_⟩
  decide

/-- Claim C8: repository init without --mkdir in a directory that
already contains .git exits with status 1 with no step executed: no
file is created, copied or modified and no configuration value is
written. -/
theorem c8_init_aborts_on_dotgit :
    ∀ subdirExists : Bool,
      repo_init false subdirExists true = ([], some (PyError.systemExit 1)) := by
  decide

/-- Claim C9: namespace derivation returns the ordered, duplicate-free
list of the dotted renderings of every nonempty strict initial segment
of the dot-separated name, excluding the full name; in particular it
maps "infi.projector.tool" to ["infi", "infi.projector"] and "a.b.c"
to ["a", "a.b"]. -/
theorem c9_namespace_derivation :
    (∀ name : String, get_package_namespace name = namespace_segments_spec name) ∧
    (∀ name : String, (get_package_namespace name).Nodup) ∧
    get_package_namespace "infi.projector.tool" = ["infi", "infi.projector"] ∧
    get_package_namespace "a.b.c" = ["a", "a.b"] :=
  ⟨get_package_namespace_eq_spec, get_package_namespace_nodup, by decide, by decide⟩

/-- Claim C10: the chdir scope always ends with the working directory
restored to the directory current at scope entry, propagating the
raised flag of the body; consequently the subdirectory scope of
repository init and clone with --mkdir either exits with status 1 when
the subdirectory exists or leaves the process back in the original
directory after the body completes or raises. -/
theorem c10_chdir_restores_cwd :
    ∀ (cwd0 path dirname : String) (subdirExists : Bool) (body : String → String × Bool),
      (chdir_scope cwd0 path body).1 = cwd0 ∧
      (chdir_scope cwd0 path body).2 = (body (abspathFrom cwd0 path)).2 ∧
      create_subdir_scope cwd0 dirname subdirExists body =
        (if subdirExists then Except.error 1
         else Except.ok (cwd0, (body (abspathFrom cwd0 dirname)).2)) := by
  intro cwd0 path dirname subdirExists body
  refine ⟨rfl, rfl, ?_⟩
  cases subdirExists <;> simp [create_subdir_scope, chdir_scope, abspathFrom]

end Projector
